import Mathlib

/-!
A shallow embedding of the nvdash GPU-monitor core (src/gpu.rs and the
poll scheduler of src/main.rs) in Lean 4, together with theorems checking
the natural-language specification against it.

Modelling conventions:
* Rust machine integers (`u32`, `u64`) are embedded as `Nat`; none of the
  verified code paths can overflow or rely on wrap-around.
* `f64` values (power in watts, history samples) are embedded as `ℚ`:
  the program only divides milliwatts by 1000 and stores samples verbatim,
  and no claim depends on floating-point rounding.
* The NVML handle (`nvml_wrapper::Nvml`) is a live connection to external
  vendor state: every query reflects the world at call time.  The
  embedding therefore passes the current vendor world (`Nvml`, a record of
  query results, and a `Device` record per index) explicitly to each
  operation.  `GpuMonitor` itself carries only the data the Rust struct
  caches at `init` time, namely `device_count`.
* The OS process table consulted by `resolve_process_names` (sysinfo) is
  embedded as a lookup function `Nat → Option String` from pid to name.
* `VecDeque<f64>` is embedded as `List ℚ`, front of the deque at the head.
* `Instant`/`Duration` are embedded as `Nat` millisecond timestamps;
  `last_poll.elapsed()` at time `now` is the saturating difference
  `now - last_poll`, which Nat subtraction models exactly.
-/

/-- Maximum number of history samples to keep (src/gpu.rs, `MAX_HISTORY`). -/
def MAX_HISTORY : Nat := 120

/-- An NVML error; only its display text matters to the program
(it is interpolated into the scheduler's error message). -/
structure NvmlError where
  msg : String
deriving DecidableEq, Repr

/-- `nvml_wrapper::struct_wrappers::device::Utilization`. -/
structure Utilization where
  gpu : Nat
  memory : Nat
deriving DecidableEq, Repr

/-- The `memory_info` query result (used/total, in bytes). -/
structure MemoryInfo where
  used : Nat
  total : Nat
deriving DecidableEq, Repr

/-- A raw process entry as returned by `running_compute_processes` /
`running_graphics_processes`: a pid and an optionally-reported byte count. -/
structure RawProc where
  pid : Nat
  used_gpu_memory : Option Nat
deriving DecidableEq, Repr

/-- `ProcessInfo` (src/gpu.rs). -/
structure ProcessInfo where
  pid : Nat
  name : String
  vram_mb : Nat
deriving DecidableEq, Repr

/-- `GpuSnapshot` (src/gpu.rs). -/
structure GpuSnapshot where
  name : String
  index : Nat
  driver_version : String
  cuda_version : String
  gpu_util : Nat
  memory_util : Nat
  vram_used_mb : Nat
  vram_total_mb : Nat
  temperature : Nat
  fan_speed : Option Nat
  power_draw_w : ℚ
  power_limit_w : ℚ
  clock_graphics_mhz : Nat
  clock_memory_mhz : Nat
  clock_sm_mhz : Nat
  processes : List ProcessInfo
deriving DecidableEq, Repr

/-- `GpuHistory` (src/gpu.rs): four rolling buffers. -/
structure GpuHistory where
  gpu_util : List ℚ
  vram_used : List ℚ
  temperature : List ℚ
  power_draw : List ℚ
deriving DecidableEq, Repr

namespace GpuHistory

/-- `GpuHistory::new`: four empty buffers (capacity is not observable). -/
def new : GpuHistory := ⟨[], [], [], []⟩

/-- `GpuHistory::push_val`: drop the oldest sample when the buffer is full,
then append the new sample at the back. -/
def push_val (buf : List ℚ) (val : ℚ) : List ℚ :=
  (if MAX_HISTORY ≤ buf.length then buf.tail else buf) ++ [val]

/-- `GpuHistory::push`: append one sample, derived from the snapshot, to
each of the four buffers. -/
def push (h : GpuHistory) (snapshot : GpuSnapshot) : GpuHistory :=
  { gpu_util := push_val h.gpu_util (snapshot.gpu_util : ℚ)
    vram_used := push_val h.vram_used (snapshot.vram_used_mb : ℚ)
    temperature := push_val h.temperature (snapshot.temperature : ℚ)
    power_draw := push_val h.power_draw snapshot.power_draw_w }

/-- Folding `push_val` over a list of samples, starting from a buffer. -/
def pushAllFrom (buf : List ℚ) (vs : List ℚ) : List ℚ :=
  vs.foldl push_val buf

/-- Folding `push_val` over a list of samples, starting from the empty
buffer: the state of one history buffer after that sequence of pushes. -/
def pushAll (vs : List ℚ) : List ℚ :=
  pushAllFrom [] vs

end GpuHistory

section HistoryLemmas

open GpuHistory

lemma push_val_eq_takeLast (buf : List ℚ) (val : ℚ) (h : buf.length ≤ MAX_HISTORY) :
    push_val buf val = (buf ++ [val]).drop ((buf ++ [val]).length - MAX_HISTORY) := by
  unfold push_val
  rcases lt_or_eq_of_le h with hlt | heq
  · rw [if_neg (by omega)]
    have : (buf ++ [val]).length - MAX_HISTORY = 0 := by
      simp only [List.length_append, List.length_singleton]; omega
    rw [this, List.drop_zero]
  · rw [if_pos (by omega)]
    have hlen : (buf ++ [val]).length - MAX_HISTORY = 1 := by
      simp only [List.length_append, List.length_singleton]; omega
    rw [hlen]
    cases buf with
    | nil => simp [MAX_HISTORY] at heq
    | cons a t => simp

lemma push_val_length (buf : List ℚ) (val : ℚ) (h : buf.length ≤ MAX_HISTORY) :
    (push_val buf val).length = min (buf.length + 1) MAX_HISTORY := by
  unfold push_val
  rcases lt_or_eq_of_le h with hlt | heq
  · rw [if_neg (by omega)]
    simp only [List.length_append, List.length_singleton]
    omega
  · rw [if_pos (by omega)]
    cases buf with
    | nil => simp [MAX_HISTORY] at heq
    | cons a t =>
      simp only [List.tail_cons, List.length_append, List.length_singleton]
      simp only [List.length_cons] at heq ⊢
      omega

lemma drop_append_drop (n : Nat) (l r : List ℚ) :
    (l.drop (l.length - n) ++ r).drop ((l.drop (l.length - n) ++ r).length - n)
      = (l ++ r).drop ((l ++ r).length - n) := by
  rw [List.drop_append_eq_append_drop, List.drop_append_eq_append_drop]
  have hdl : (l.drop (l.length - n)).length = min n l.length := by
    simp only [List.length_drop]; omega
  congr 1
  · rw [List.drop_drop]
    congr 1
    simp only [List.length_append, List.length_drop]
    omega
  · congr 1
    simp only [List.length_append, List.length_drop]
    omega

lemma pushAllFrom_eq_takeLast (vs : List ℚ) :
    ∀ buf : List ℚ, buf.length ≤ MAX_HISTORY →
      pushAllFrom buf vs = (buf ++ vs).drop ((buf ++ vs).length - MAX_HISTORY) := by
  induction vs with
  | nil =>
    intro buf h
    simp only [pushAllFrom, List.foldl_nil, List.append_nil]
    have : buf.length - MAX_HISTORY = 0 := by omega
    rw [this, List.drop_zero]
  | cons v vs ih =>
    intro buf h
    have hstep : pushAllFrom buf (v :: vs) = pushAllFrom (push_val buf v) vs := rfl
    rw [hstep, ih (push_val buf v) (by rw [push_val_length buf v h]; omega)]
    rw [push_val_eq_takeLast buf v h]
    have := drop_append_drop MAX_HISTORY (buf ++ [v]) vs
    simpa [List.append_assoc] using this

lemma pushAll_eq_takeLast (vs : List ℚ) :
    pushAll vs = vs.drop (vs.length - MAX_HISTORY) := by
  have := pushAllFrom_eq_takeLast vs [] (by simp [MAX_HISTORY])
  simpa [pushAll] using this

end HistoryLemmas

/-- The clock domains queried by the snapshot builder (`Clock::Graphics`,
`Clock::Memory`, `Clock::SM`). -/
inductive ClockDomain where
  | graphics
  | memory
  | sm
deriving DecidableEq, Repr

/-- The vendor-reported state of one device at one query instant: each
field is the result the corresponding NVML device query would return. -/
structure Device where
  name : Except NvmlError String
  utilization_rates : Except NvmlError Utilization
  memory_info : Except NvmlError MemoryInfo
  temperature : Except NvmlError Nat
  fan_speed : Except NvmlError Nat
  power_usage : Except NvmlError Nat
  enforced_power_limit : Except NvmlError Nat
  clock_info : ClockDomain → Except NvmlError Nat
  running_compute_processes : Except NvmlError (List RawProc)
  running_graphics_processes : Except NvmlError (List RawProc)

/-- The vendor world as seen through the live NVML handle at one call
instant.  The Rust `Nvml` value is an opaque connection; every method on
it re-queries external state, so the embedding passes a value of this
type to each operation that touches the handle. -/
structure Nvml where
  device_count : Except NvmlError Nat
  sys_driver_version : Except NvmlError String
  sys_cuda_driver_version : Except NvmlError Nat
  device_by_index : Nat → Except NvmlError Device

/-- Rust's `Result::unwrap_or`. -/
def orDefault (x : Except NvmlError α) (d : α) : α :=
  match x with
  | .ok v => v
  | .error _ => d

/-- `GpuMonitor` (src/gpu.rs): the struct caches `device_count` at init;
its `nvml` field is the live handle, modelled by the explicit `Nvml`
argument of each method. -/
structure GpuMonitor where
  device_count : Nat
deriving DecidableEq, Repr

namespace GpuMonitor

/-- `GpuMonitor::init`: query the device count once and cache it. -/
def init (nvml : Nvml) : Except NvmlError GpuMonitor := do
  let device_count ← nvml.device_count
  pure { device_count := device_count }

/-- `GpuMonitor::driver_version`: a fresh `sys_driver_version` query with
an "N/A" fallback. -/
def driver_version (nvml : Nvml) : String :=
  orDefault nvml.sys_driver_version "N/A"

/-- `GpuMonitor::cuda_version`: a fresh `sys_cuda_driver_version` query,
formatted `major.minor`, with an "N/A" fallback. -/
def cuda_version (nvml : Nvml) : String :=
  match nvml.sys_cuda_driver_version with
  | .ok v => toString (v / 1000) ++ "." ++ toString ((v % 1000) / 10)
  | .error _ => "N/A"

end GpuMonitor

/-- The process entry built in the snapshot loops: missing memory is
treated as 0 bytes, and bytes are converted to MB; the display name is
resolved later. -/
def procFromRaw (p : RawProc) : ProcessInfo :=
  { pid := p.pid, name := "", vram_mb := p.used_gpu_memory.getD 0 / (1024 * 1024) }

/-- The body of the graphics-process loop: skip the entry if its pid is
already present in the accumulated process list, else append it. -/
def addGfxProc (acc : List ProcessInfo) (p : RawProc) : List ProcessInfo :=
  if acc.any (fun q => q.pid == p.pid) then acc else acc ++ [procFromRaw p]

/-- The process-collection phase of `GpuMonitor::snapshot`: all compute
entries are appended unconditionally, then graphics entries are appended
with the duplicate-pid check. -/
def mergeProcesses (compute gfx : List RawProc) : List ProcessInfo :=
  gfx.foldl addGfxProc (compute.map procFromRaw)

/-- `resolve_process_names` (src/gpu.rs): batch-resolve pids against the
OS process table `pn`, falling back to the synthesized "PID n" label. -/
def resolve_process_names (pn : Nat → Option String) (processes : List ProcessInfo) :
    List ProcessInfo :=
  processes.map (fun p => { p with name := (pn p.pid).getD ("PID " ++ toString p.pid) })

/-- Insert an entry into a list, before the first entry whose VRAM figure
is less than or equal to its own. -/
def insertByVram (x : ProcessInfo) : List ProcessInfo → List ProcessInfo
  | [] => [x]
  | y :: ys => if y.vram_mb ≤ x.vram_mb then x :: y :: ys else y :: insertByVram x ys

/-- `processes.sort_by(|a, b| b.vram_mb.cmp(&a.vram_mb))`: a stable sort
by descending VRAM.  A stable sorted permutation of a list is unique, so
any stable sorting algorithm embeds Rust's stable `sort_by` faithfully;
insertion sort is used because it computes by `rfl`.  Sortedness,
permutation and stability are proved below. -/
def sortByVramDesc : List ProcessInfo → List ProcessInfo
  | [] => []
  | x :: xs => insertByVram x (sortByVramDesc xs)

namespace GpuMonitor

/-- `GpuMonitor::snapshot` (src/gpu.rs).  `nvml` is the vendor world at
the instant of the call and `pn` the OS process table consulted by
`resolve_process_names`. -/
def snapshot (nvml : Nvml) (pn : Nat → Option String) (index : Nat) :
    Except NvmlError GpuSnapshot := do
  let device ← nvml.device_by_index index
  let name := orDefault device.name "Unknown GPU"
  let utilization := orDefault device.utilization_rates { gpu := 0, memory := 0 }
  let mem_info ← device.memory_info
  let temperature := orDefault device.temperature 0
  let fan_speed := device.fan_speed.toOption
  let power_draw_mw : Nat := orDefault device.power_usage 0
  let power_limit_mw : Nat := orDefault device.enforced_power_limit 0
  let clock_graphics := orDefault (device.clock_info ClockDomain.graphics) 0
  let clock_memory := orDefault (device.clock_info ClockDomain.memory) 0
  let clock_sm := orDefault (device.clock_info ClockDomain.sm) 0
  let compute_procs := orDefault device.running_compute_processes []
  let gfx_procs := orDefault device.running_graphics_processes []
  let merged := mergeProcesses compute_procs gfx_procs
  let resolved := resolve_process_names pn merged
  let processes := sortByVramDesc resolved
  pure
    { name := name
      index := index
      driver_version := driver_version nvml
      cuda_version := cuda_version nvml
      gpu_util := utilization.gpu
      memory_util := utilization.memory
      vram_used_mb := mem_info.used / (1024 * 1024)
      vram_total_mb := mem_info.total / (1024 * 1024)
      temperature := temperature
      fan_speed := fan_speed
      power_draw_w := Rat.divInt power_draw_mw 1000
      power_limit_w := Rat.divInt power_limit_mw 1000
      clock_graphics_mhz := clock_graphics
      clock_memory_mhz := clock_memory
      clock_sm_mhz := clock_sm
      processes := processes }

end GpuMonitor

/-- Update the element at an index of a list in place; out-of-range
indices leave the list unchanged (mirrors the `idx < len` guard around
`self.histories[idx].push(..)` in the poll loop). -/
def modifyIdx (f : α → α) : List α → Nat → List α
  | [], _ => []
  | a :: t, 0 => f a :: t
  | a :: t, i + 1 => a :: modifyIdx f t i

/-- The application state `NvDash` (src/main.rs), with `Instant` and
`Duration` as millisecond counts and the live monitor handle passed
explicitly to `poll`. -/
structure NvDashState where
  monitor : GpuMonitor
  snapshots : List GpuSnapshot
  histories : List GpuHistory
  last_poll : Nat
  poll_interval : Nat
  always_on_top : Bool
  show_clocks : Bool
  error_msg : Option String

/-- The mutable triple the poll loop updates. -/
structure PollAcc where
  snapshots : List GpuSnapshot
  histories : List GpuHistory
  error_msg : Option String

/-- One iteration of the poll loop (`for i in 0..device_count`): on a
successful snapshot, push to the history and replace the snapshot (each
under its `idx < len` guard) and clear the error message; on failure, set
the error message to the formatted device/cause text. -/
def pollStep (nvml : Nvml) (pn : Nat → Option String) (acc : PollAcc) (i : Nat) :
    PollAcc :=
  match GpuMonitor.snapshot nvml pn i with
  | .ok snap =>
      { snapshots :=
          if i < acc.snapshots.length then acc.snapshots.set i snap else acc.snapshots
        histories :=
          if i < acc.histories.length then
            modifyIdx (fun h => h.push snap) acc.histories i
          else acc.histories
        error_msg := none }
  | .error e =>
      { acc with
        error_msg := some ("GPU " ++ toString i ++ " poll error: " ++ e.msg) }

namespace NvDashState

/-- `NvDash::poll` (src/main.rs): no-op while the elapsed time since the
last poll is below the interval; otherwise record the poll time and run
the per-device loop. -/
def poll (s : NvDashState) (nvml : Nvml) (pn : Nat → Option String) (now : Nat) :
    NvDashState :=
  if now - s.last_poll < s.poll_interval then s
  else
    let acc := (List.range s.monitor.device_count).foldl (pollStep nvml pn)
      { snapshots := s.snapshots, histories := s.histories, error_msg := s.error_msg }
    { s with
      last_poll := now
      snapshots := acc.snapshots
      histories := acc.histories
      error_msg := acc.error_msg }

end NvDashState

section SortLemmas

lemma insertByVram_perm (x : ProcessInfo) (l : List ProcessInfo) :
    List.Perm (insertByVram x l) (x :: l) := by
  induction l with
  | nil => simp [insertByVram]
  | cons y ys ih =>
    unfold insertByVram
    by_cases h : y.vram_mb ≤ x.vram_mb
    · rw [if_pos h]
    · rw [if_neg h]
      exact List.Perm.trans (List.Perm.cons y ih) (List.Perm.swap x y ys)

lemma sortByVramDesc_perm (l : List ProcessInfo) :
    List.Perm (sortByVramDesc l) l := by
  induction l with
  | nil => simp [sortByVramDesc]
  | cons x xs ih =>
    unfold sortByVramDesc
    exact List.Perm.trans (insertByVram_perm x (sortByVramDesc xs)) (List.Perm.cons x ih)

lemma mem_insertByVram {z x : ProcessInfo} {l : List ProcessInfo} :
    z ∈ insertByVram x l ↔ z = x ∨ z ∈ l := by
  rw [(insertByVram_perm x l).mem_iff]
  simp

lemma insertByVram_sorted (x : ProcessInfo) (l : List ProcessInfo)
    (hl : l.Pairwise (fun a b => b.vram_mb ≤ a.vram_mb)) :
    (insertByVram x l).Pairwise (fun a b => b.vram_mb ≤ a.vram_mb) := by
  induction l with
  | nil => simp [insertByVram]
  | cons y ys ih =>
    unfold insertByVram
    rcases List.pairwise_cons.mp hl with ⟨hy, hys⟩
    by_cases h : y.vram_mb ≤ x.vram_mb
    · rw [if_pos h]
      refine List.pairwise_cons.mpr ⟨?_, hl⟩
      intro z hz
      rcases List.mem_cons.mp hz with rfl | hz'
      · exact h
      · exact le_trans (hy z hz') h
    · rw [if_neg h]
      refine List.pairwise_cons.mpr ⟨?_, ih hys⟩
      intro z hz
      rcases mem_insertByVram.mp hz with rfl | hz'
      · omega
      · exact hy z hz'

lemma sortByVramDesc_sorted (l : List ProcessInfo) :
    (sortByVramDesc l).Pairwise (fun a b => b.vram_mb ≤ a.vram_mb) := by
  induction l with
  | nil => simp [sortByVramDesc]
  | cons x xs ih => exact insertByVram_sorted x (sortByVramDesc xs) ih

lemma filter_insertByVram_eq (x : ProcessInfo) (l : List ProcessInfo) (v : Nat)
    (hx : x.vram_mb = v) :
    (insertByVram x l).filter (fun p => p.vram_mb == v)
      = x :: l.filter (fun p => p.vram_mb == v) := by
  have hxf : (x.vram_mb == v) = true := by simpa using hx
  induction l with
  | nil => simp [insertByVram, List.filter_cons, hxf]
  | cons y ys ih =>
    unfold insertByVram
    by_cases h : y.vram_mb ≤ x.vram_mb
    · rw [if_pos h]
      simp [List.filter_cons, hxf]
    · rw [if_neg h]
      have hy : (y.vram_mb == v) = false := by
        simp only [beq_eq_false_iff_ne, ne_eq]
        omega
      simp [List.filter_cons, hy, ih]

lemma filter_insertByVram_ne (x : ProcessInfo) (l : List ProcessInfo) (v : Nat)
    (hx : x.vram_mb ≠ v) :
    (insertByVram x l).filter (fun p => p.vram_mb == v)
      = l.filter (fun p => p.vram_mb == v) := by
  have hxf : (x.vram_mb == v) = false := by simpa using hx
  induction l with
  | nil => simp [insertByVram, List.filter_cons, hxf]
  | cons y ys ih =>
    unfold insertByVram
    by_cases h : y.vram_mb ≤ x.vram_mb
    · rw [if_pos h]
      simp [List.filter_cons, hxf]
    · rw [if_neg h]
      simp [List.filter_cons, ih]

lemma sortByVramDesc_stable (l : List ProcessInfo) (v : Nat) :
    (sortByVramDesc l).filter (fun p => p.vram_mb == v)
      = l.filter (fun p => p.vram_mb == v) := by
  induction l with
  | nil => simp [sortByVramDesc]
  | cons x xs ih =>
    unfold sortByVramDesc
    by_cases hx : x.vram_mb = v
    · rw [filter_insertByVram_eq x _ v hx, ih]
      have hxf : (x.vram_mb == v) = true := by simpa using hx
      simp [List.filter_cons, hxf]
    · rw [filter_insertByVram_ne x _ v hx, ih]
      have hxf : (x.vram_mb == v) = false := by simpa using hx
      simp [List.filter_cons, hxf]

end SortLemmas

/-- Follows the spec's words, for comparison with `mergeProcesses`:
"Union them by process id: a process id appearing in the compute list is
kept even if it later reappears in the graphics list (no duplicate
entries; first-seen wins)" — every discovered entry, in discovery order
(compute list then graphics list), is appended unless its pid is already
present. -/
def specUnionByPid (l : List RawProc) : List ProcessInfo :=
  l.foldl addGfxProc []

section MergeLemmas

lemma foldl_addGfxProc_of_fresh :
    ∀ (c : List RawProc) (acc : List ProcessInfo),
      (c.map RawProc.pid).Nodup →
      (∀ p ∈ c, ∀ q ∈ acc, q.pid ≠ p.pid) →
      c.foldl addGfxProc acc = acc ++ c.map procFromRaw := by
  intro c
  induction c with
  | nil => intro acc _ _; simp
  | cons p ps ih =>
    intro acc hnd hfresh
    have hcheck : acc.any (fun q => q.pid == p.pid) = false := by
      rw [List.any_eq_false]
      intro q hq
      simpa using hfresh p (List.mem_cons_self p ps) q hq
    have hstep : (p :: ps).foldl addGfxProc acc
        = ps.foldl addGfxProc (acc ++ [procFromRaw p]) := by
      simp only [List.foldl_cons, addGfxProc, hcheck]
      rfl
    rw [hstep]
    rw [List.map_cons, List.nodup_cons] at hnd
    rw [ih (acc ++ [procFromRaw p]) hnd.2 ?_]
    · simp
    · intro r hr q hq
      rcases List.mem_append.mp hq with hq' | hq'
      · exact hfresh r (List.mem_cons_of_mem p hr) q hq'
      · have hqe : q = procFromRaw p := by simpa using hq'
        subst hqe
        intro hcontra
        apply hnd.1
        have hmem : r.pid ∈ List.map RawProc.pid ps :=
          List.mem_map_of_mem RawProc.pid hr
        rw [← hcontra] at hmem
        exact hmem

lemma foldl_addGfxProc_pid_nodup :
    ∀ (g : List RawProc) (acc : List ProcessInfo),
      (acc.map (fun q => q.pid)).Nodup →
      ((g.foldl addGfxProc acc).map (fun q => q.pid)).Nodup := by
  intro g
  induction g with
  | nil => intro acc h; simpa using h
  | cons p ps ih =>
    intro acc h
    rw [List.foldl_cons]
    apply ih
    unfold addGfxProc
    by_cases hc : acc.any (fun q => q.pid == p.pid) = true
    · rw [if_pos hc]; exact h
    · rw [if_neg hc]
      rw [List.map_append]
      simp only [List.map_cons, List.map_nil]
      rw [List.nodup_append]
      refine ⟨h, List.nodup_singleton _, ?_⟩
      intro a ha hb
      have hae : a = (procFromRaw p).pid := by simpa using hb
      subst hae
      rcases List.mem_map.mp ha with ⟨q, hq, hqpid⟩
      have hcf : (acc.any fun q => q.pid == p.pid) = false := by simpa using hc
      have hne := List.any_eq_false.mp hcf q hq
      simp only [beq_iff_eq] at hne
      exact hne (by simpa [procFromRaw] using hqpid)

lemma mergeProcesses_eq_specUnion (c g : List RawProc)
    (hnd : (c.map RawProc.pid).Nodup) :
    mergeProcesses c g = specUnionByPid (c ++ g) := by
  unfold mergeProcesses specUnionByPid
  rw [List.foldl_append]
  congr 1
  have := foldl_addGfxProc_of_fresh c [] hnd (by intro p _ q hq; simp at hq)
  simpa using this.symm

lemma mergeProcesses_pid_nodup (c g : List RawProc)
    (hnd : (c.map RawProc.pid).Nodup) :
    ((mergeProcesses c g).map (fun q => q.pid)).Nodup := by
  unfold mergeProcesses
  apply foldl_addGfxProc_pid_nodup
  rw [List.map_map]
  have : (fun q => ProcessInfo.pid q) ∘ procFromRaw = RawProc.pid := by
    funext p; rfl
  rw [this]
  exact hnd

end MergeLemmas

section PollLemmas

lemma length_modifyIdx (f : α → α) : ∀ (l : List α) (i : Nat),
    (modifyIdx f l i).length = l.length := by
  intro l
  induction l with
  | nil => intro i; rfl
  | cons a t ih =>
    intro i
    cases i with
    | zero => rfl
    | succ n => simp only [modifyIdx, List.length_cons, ih]

lemma getElem?_modifyIdx_self (f : α → α) : ∀ (l : List α) (i : Nat),
    (modifyIdx f l i)[i]? = (l[i]?).map f := by
  intro l
  induction l with
  | nil => intro i; simp [modifyIdx]
  | cons a t ih =>
    intro i
    cases i with
    | zero => simp [modifyIdx]
    | succ n => simpa [modifyIdx] using ih n

lemma getElem?_modifyIdx_ne (f : α → α) : ∀ (l : List α) (i j : Nat), i ≠ j →
    (modifyIdx f l i)[j]? = l[j]? := by
  intro l
  induction l with
  | nil => intro i j _; simp [modifyIdx]
  | cons a t ih =>
    intro i j hne
    cases i with
    | zero =>
      cases j with
      | zero => exact absurd rfl hne
      | succ m => simp [modifyIdx]
    | succ n =>
      cases j with
      | zero => simp [modifyIdx]
      | succ m => simpa [modifyIdx] using ih n m (by omega)

lemma pollStep_lengths (nvml : Nvml) (pn : Nat → Option String) (acc : PollAcc)
    (i : Nat) :
    (pollStep nvml pn acc i).snapshots.length = acc.snapshots.length ∧
    (pollStep nvml pn acc i).histories.length = acc.histories.length := by
  cases hsnap : GpuMonitor.snapshot nvml pn i with
  | ok snap =>
    constructor
    · by_cases h : i < acc.snapshots.length <;> simp [pollStep, hsnap, h]
    · by_cases h : i < acc.histories.length <;>
        simp [pollStep, hsnap, h, length_modifyIdx]
  | error e => simp [pollStep, hsnap]

lemma foldl_pollStep_lengths (nvml : Nvml) (pn : Nat → Option String) :
    ∀ (L : List Nat) (acc : PollAcc),
      (L.foldl (pollStep nvml pn) acc).snapshots.length = acc.snapshots.length ∧
      (L.foldl (pollStep nvml pn) acc).histories.length = acc.histories.length := by
  intro L
  induction L with
  | nil => intro acc; exact ⟨rfl, rfl⟩
  | cons i L ih =>
    intro acc
    rw [List.foldl_cons]
    rcases ih (pollStep nvml pn acc i) with ⟨h1, h2⟩
    rcases pollStep_lengths nvml pn acc i with ⟨g1, g2⟩
    exact ⟨h1.trans g1, h2.trans g2⟩

lemma pollStep_getElem?_ne (nvml : Nvml) (pn : Nat → Option String) (acc : PollAcc)
    {i j : Nat} (hne : i ≠ j) :
    (pollStep nvml pn acc i).snapshots[j]? = acc.snapshots[j]? ∧
    (pollStep nvml pn acc i).histories[j]? = acc.histories[j]? := by
  cases hsnap : GpuMonitor.snapshot nvml pn i with
  | ok snap =>
    constructor
    · by_cases h : i < acc.snapshots.length
      · simp [pollStep, hsnap, h, List.getElem?_set_ne hne]
      · simp [pollStep, hsnap, h]
    · by_cases h : i < acc.histories.length
      · simp [pollStep, hsnap, h, getElem?_modifyIdx_ne _ _ _ _ hne]
      · simp [pollStep, hsnap, h]
  | error e => simp [pollStep, hsnap]

lemma foldl_pollStep_untouched (nvml : Nvml) (pn : Nat → Option String) (j : Nat) :
    ∀ (L : List Nat) (acc : PollAcc), (∀ i ∈ L, i ≠ j) →
      (L.foldl (pollStep nvml pn) acc).snapshots[j]? = acc.snapshots[j]? ∧
      (L.foldl (pollStep nvml pn) acc).histories[j]? = acc.histories[j]? := by
  intro L
  induction L with
  | nil => intro acc _; exact ⟨rfl, rfl⟩
  | cons i L ih =>
    intro acc hL
    rw [List.foldl_cons]
    rcases ih (pollStep nvml pn acc i) (fun x hx => hL x (List.mem_cons_of_mem i hx))
      with ⟨h1, h2⟩
    rcases pollStep_getElem?_ne nvml pn acc (hL i (List.mem_cons_self i L))
      with ⟨g1, g2⟩
    exact ⟨h1.trans g1, h2.trans g2⟩

lemma foldl_pollStep_range_error (nvml : Nvml) (pn : Nat → Option String)
    (j : Nat) (e : NvmlError) (hj : GpuMonitor.snapshot nvml pn j = .error e) :
    ∀ (n : Nat) (acc : PollAcc),
      ((List.range n).foldl (pollStep nvml pn) acc).snapshots[j]? = acc.snapshots[j]? ∧
      ((List.range n).foldl (pollStep nvml pn) acc).histories[j]? = acc.histories[j]? := by
  intro n
  induction n with
  | zero => intro acc; exact ⟨rfl, rfl⟩
  | succ m ih =>
    intro acc
    rw [List.range_succ, List.foldl_append, List.foldl_cons, List.foldl_nil]
    by_cases hmj : m = j
    · subst hmj
      have hstep : pollStep nvml pn ((List.range m).foldl (pollStep nvml pn) acc) m
          = { (List.range m).foldl (pollStep nvml pn) acc with
              error_msg := some ("GPU " ++ toString m ++ " poll error: " ++ e.msg) } := by
        simp [pollStep, hj]
      rw [hstep]
      exact ih acc
    · rcases pollStep_getElem?_ne nvml pn ((List.range m).foldl (pollStep nvml pn) acc)
        hmj with ⟨h1, h2⟩
      rcases ih acc with ⟨g1, g2⟩
      exact ⟨h1.trans g1, h2.trans g2⟩

lemma foldl_pollStep_range_ok (nvml : Nvml) (pn : Nat → Option String)
    (j : Nat) (snap : GpuSnapshot)
    (hj : GpuMonitor.snapshot nvml pn j = .ok snap) :
    ∀ (n : Nat) (acc : PollAcc), j < n →
      j < acc.snapshots.length → j < acc.histories.length →
      ((List.range n).foldl (pollStep nvml pn) acc).snapshots[j]? = some snap ∧
      ((List.range n).foldl (pollStep nvml pn) acc).histories[j]?
        = (acc.histories[j]?).map (fun h => h.push snap) := by
  intro n
  induction n with
  | zero => intro acc h; omega
  | succ m ih =>
    intro acc hjm hs hh
    rw [List.range_succ, List.foldl_append, List.foldl_cons, List.foldl_nil]
    rcases Nat.lt_succ_iff_lt_or_eq.mp hjm with hlt | heq
    · rcases pollStep_getElem?_ne nvml pn ((List.range m).foldl (pollStep nvml pn) acc)
        (show m ≠ j by omega) with ⟨h1, h2⟩
      rcases ih acc hlt hs hh with ⟨g1, g2⟩
      exact ⟨h1.trans g1, h2.trans g2⟩
    · subst heq
      have hne : ∀ i ∈ List.range j, i ≠ j := by
        intro i hi
        have := List.mem_range.mp hi
        omega
      rcases foldl_pollStep_untouched nvml pn j (List.range j) acc hne with ⟨u1, u2⟩
      rcases foldl_pollStep_lengths nvml pn (List.range j) acc with ⟨l1, l2⟩
      have hs' : j < ((List.range j).foldl (pollStep nvml pn) acc).snapshots.length := by
        omega
      have hh' : j < ((List.range j).foldl (pollStep nvml pn) acc).histories.length := by
        omega
      constructor
      · simp [pollStep, hj, hs', List.getElem?_set_self hs']
      · rw [show (pollStep nvml pn ((List.range j).foldl (pollStep nvml pn) acc) j).histories
            = modifyIdx (fun h => h.push snap)
                ((List.range j).foldl (pollStep nvml pn) acc).histories j from by
          simp [pollStep, hj, hh']]
        rw [getElem?_modifyIdx_self, u2]

lemma pollStep_error_msg (nvml : Nvml) (pn : Nat → Option String) (acc : PollAcc)
    (i : Nat) :
    (pollStep nvml pn acc i).error_msg
      = match GpuMonitor.snapshot nvml pn i with
        | .ok _ => none
        | .error e => some ("GPU " ++ toString i ++ " poll error: " ++ e.msg) := by
  cases hsnap : GpuMonitor.snapshot nvml pn i with
  | ok snap => simp [pollStep, hsnap]
  | error e => simp [pollStep, hsnap]

lemma foldl_pollStep_range_succ_error_msg (nvml : Nvml) (pn : Nat → Option String)
    (n : Nat) (acc : PollAcc) :
    ((List.range (n + 1)).foldl (pollStep nvml pn) acc).error_msg
      = match GpuMonitor.snapshot nvml pn n with
        | .ok _ => none
        | .error e => some ("GPU " ++ toString n ++ " poll error: " ++ e.msg) := by
  rw [List.range_succ, List.foldl_append, List.foldl_cons, List.foldl_nil]
  exact pollStep_error_msg nvml pn _ n

end PollLemmas

lemma poll_noop (s : NvDashState) (nvml : Nvml) (pn : Nat → Option String) (now : Nat)
    (h : now - s.last_poll < s.poll_interval) :
    s.poll nvml pn now = s := by
  simp [NvDashState.poll, h]

lemma poll_run (s : NvDashState) (nvml : Nvml) (pn : Nat → Option String) (now : Nat)
    (h : ¬ now - s.last_poll < s.poll_interval) :
    s.poll nvml pn now =
      { s with
        last_poll := now
        snapshots := ((List.range s.monitor.device_count).foldl (pollStep nvml pn)
          { snapshots := s.snapshots, histories := s.histories,
            error_msg := s.error_msg }).snapshots
        histories := ((List.range s.monitor.device_count).foldl (pollStep nvml pn)
          { snapshots := s.snapshots, histories := s.histories,
            error_msg := s.error_msg }).histories
        error_msg := ((List.range s.monitor.device_count).foldl (pollStep nvml pn)
          { snapshots := s.snapshots, histories := s.histories,
            error_msg := s.error_msg }).error_msg } := by
  simp [NvDashState.poll, h]

/-- Equality of query results is decidable when both payloads decide. -/
instance [DecidableEq e] [DecidableEq a] : DecidableEq (Except e a) := fun x y =>
  match x, y with
  | .ok v, .ok w =>
      if h : v = w then .isTrue (by rw [h])
      else .isFalse (by intro hc; cases hc; exact h rfl)
  | .ok _, .error _ => .isFalse (by intro hc; cases hc)
  | .error _, .ok _ => .isFalse (by intro hc; cases hc)
  | .error v, .error w =>
      if h : v = w then .isTrue (by rw [h])
      else .isFalse (by intro hc; cases hc; exact h rfl)

/-! Concrete stub fixtures used by witnesses and counterexamples. -/

/-- The empty OS process table: no pid resolves to a name. -/
def pn0 : Nat → Option String := fun _ => none

/-- A device whose every query succeeds. -/
def devGood : Device :=
  { name := .ok "Stub GPU"
    utilization_rates := .ok { gpu := 55, memory := 40 }
    memory_info := .ok { used := 2147483648, total := 8589934592 }
    temperature := .ok 60
    fan_speed := .ok 35
    power_usage := .ok 120000
    enforced_power_limit := .ok 250000
    clock_info := fun _ => .ok 1500
    running_compute_processes := .ok []
    running_graphics_processes := .ok [] }

/-- Like `devGood`, but the memory query fails. -/
def devMemFail : Device :=
  { devGood with memory_info := .error { msg := "memory query failed" } }

/-- A device on which every query fails except the memory query. -/
def devAllFail : Device :=
  { name := .error { msg := "q" }
    utilization_rates := .error { msg := "q" }
    memory_info := .ok { used := 1073741824, total := 4294967296 }
    temperature := .error { msg := "q" }
    fan_speed := .error { msg := "q" }
    power_usage := .error { msg := "q" }
    enforced_power_limit := .error { msg := "q" }
    clock_info := fun _ => .error { msg := "q" }
    running_compute_processes := .error { msg := "q" }
    running_graphics_processes := .error { msg := "q" } }

/-- A device reporting more used than total memory (3 GiB used, 1 GiB total). -/
def devUsedGtTotal : Device :=
  { devGood with memory_info := .ok { used := 3221225472, total := 1073741824 } }

/-- A stub vendor world with three devices of which only index 1 fails at
the device-handle lookup. -/
def nvml3 : Nvml :=
  { device_count := .ok 3
    sys_driver_version := .ok "555.85"
    sys_cuda_driver_version := .ok 12040
    device_by_index := fun i =>
      if i = 1 then .error { msg := "device lost" } else .ok devGood }

/-- The same vendor seen later, after a driver/runtime update. -/
def nvmlV2 : Nvml :=
  { device_count := .ok 3
    sys_driver_version := .ok "560.94"
    sys_cuda_driver_version := .ok 12060
    device_by_index := fun _ => .ok devGood }

/-- One device whose lookup succeeds but whose memory query fails. -/
def nvmlMemFail : Nvml :=
  { device_count := .ok 1
    sys_driver_version := .ok "555.85"
    sys_cuda_driver_version := .ok 12040
    device_by_index := fun _ => .ok devMemFail }

/-- One device on which every finer-grained query fails except memory. -/
def nvmlAllFail : Nvml :=
  { device_count := .ok 1
    sys_driver_version := .ok "555.85"
    sys_cuda_driver_version := .ok 12040
    device_by_index := fun _ => .ok devAllFail }

/-- One device reporting used > total memory. -/
def nvmlUsedGtTotal : Nvml :=
  { device_count := .ok 1
    sys_driver_version := .ok "555.85"
    sys_cuda_driver_version := .ok 12040
    device_by_index := fun _ => .ok devUsedGtTotal }

/-- A world where no device exists at all. -/
def nvmlGone : Nvml :=
  { device_count := .ok 0
    sys_driver_version := .ok "555.85"
    sys_cuda_driver_version := .ok 12040
    device_by_index := fun _ => .error { msg := "no such device" } }

/-- The snapshot `devGood` yields under `nvml3` at a given index. -/
def sg3 (i : Nat) : GpuSnapshot :=
  { name := "Stub GPU"
    index := i
    driver_version := "555.85"
    cuda_version := "12.4"
    gpu_util := 55
    memory_util := 40
    vram_used_mb := 2048
    vram_total_mb := 8192
    temperature := 60
    fan_speed := some 35
    power_draw_w := 120
    power_limit_w := 250
    clock_graphics_mhz := 1500
    clock_memory_mhz := 1500
    clock_sm_mhz := 1500
    processes := [] }

/-- A placeholder prior snapshot for device `i`. -/
def blankSnap (i : Nat) : GpuSnapshot :=
  { name := "GPU " ++ toString i
    index := i
    driver_version := ""
    cuda_version := ""
    gpu_util := 0
    memory_util := 0
    vram_used_mb := 0
    vram_total_mb := 0
    temperature := 0
    fan_speed := none
    power_draw_w := 0
    power_limit_w := 0
    clock_graphics_mhz := 0
    clock_memory_mhz := 0
    clock_sm_mhz := 0
    processes := [] }

/-- A scheduler state with three devices, due for a poll at time 1000. -/
def s3 : NvDashState :=
  { monitor := { device_count := 3 }
    snapshots := [blankSnap 0, blankSnap 1, blankSnap 2]
    histories := [GpuHistory.new, GpuHistory.new, GpuHistory.new]
    last_poll := 0
    poll_interval := 500
    always_on_top := false
    show_clocks := true
    error_msg := some "prior error" }


/-- The embedded watt conversion agrees with exact division by 1000:
the Rust source computes `mw / 1000.0`. -/
lemma divInt_thousand_eq_div (n : Nat) : Rat.divInt (n : Int) 1000 = (n : ℚ) / 1000 := by
  rw [Rat.divInt_eq_div]
  push_cast
  ring

lemma push_val_length_any (buf : List ℚ) (val : ℚ) :
    (GpuHistory.push_val buf val).length
      = (if MAX_HISTORY ≤ buf.length then buf.length - 1 else buf.length) + 1 := by
  unfold GpuHistory.push_val
  by_cases h : MAX_HISTORY ≤ buf.length
  · simp [h]
  · simp [h]

lemma foldl_push_lengths_eq : ∀ (snaps : List GpuSnapshot) (h : GpuHistory),
    h.gpu_util.length = h.vram_used.length →
    h.gpu_util.length = h.temperature.length →
    h.gpu_util.length = h.power_draw.length →
    ((snaps.foldl GpuHistory.push h).gpu_util.length
        = (snaps.foldl GpuHistory.push h).vram_used.length) ∧
    ((snaps.foldl GpuHistory.push h).gpu_util.length
        = (snaps.foldl GpuHistory.push h).temperature.length) ∧
    ((snaps.foldl GpuHistory.push h).gpu_util.length
        = (snaps.foldl GpuHistory.push h).power_draw.length) := by
  intro snaps
  induction snaps with
  | nil => intro h h1 h2 h3; exact ⟨h1, h2, h3⟩
  | cons s ss ih =>
    intro h h1 h2 h3
    rw [List.foldl_cons]
    apply ih
    all_goals simp only [GpuHistory.push, push_val_length_any, ← h1, ← h2, ← h3]

/-- C2: starting from the empty buffer, any sequence of `push_val` calls
leaves the buffer no longer than 120 samples; its length is the minimum
of the number of pushes and 120, its contents are exactly the most recent
120 pushed values in push order (oldest first), and in particular after
500 pushes the length is 120 and the contents are the last 120 values. -/
theorem C2_history_ring_bound (vs : List ℚ) :
    (GpuHistory.pushAll vs).length ≤ 120 ∧
    (GpuHistory.pushAll vs).length = min vs.length 120 ∧
    GpuHistory.pushAll vs = vs.drop (vs.length - 120) ∧
    (vs.length = 500 →
      (GpuHistory.pushAll vs).length = 120 ∧
      GpuHistory.pushAll vs = vs.drop 380) := by
  have h := pushAll_eq_takeLast vs
  have hM : MAX_HISTORY = 120 := rfl
  rw [hM] at h
  have hlen : (GpuHistory.pushAll vs).length = min vs.length 120 := by
    rw [h, List.length_drop]
    omega
  refine ⟨by omega, hlen, h, ?_⟩
  intro h500
  refine ⟨by omega, ?_⟩
  rw [h, h500]

/-- C10: from `GpuHistory::new`, after any sequence of `GpuHistory::push`
calls the four history buffers (utilization, memory used, temperature,
power draw) have exactly equal lengths. -/
theorem C10_four_buffers_equal_length (snaps : List GpuSnapshot) :
    ((snaps.foldl GpuHistory.push GpuHistory.new).gpu_util.length
        = (snaps.foldl GpuHistory.push GpuHistory.new).vram_used.length) ∧
    ((snaps.foldl GpuHistory.push GpuHistory.new).gpu_util.length
        = (snaps.foldl GpuHistory.push GpuHistory.new).temperature.length) ∧
    ((snaps.foldl GpuHistory.push GpuHistory.new).gpu_util.length
        = (snaps.foldl GpuHistory.push GpuHistory.new).power_draw.length) :=
  foldl_push_lengths_eq snaps GpuHistory.new rfl rfl rfl

/-- C6: a tick whose elapsed time since the last poll is below the
configured interval is a no-op (the whole state, including snapshots,
histories, error message and last-poll time, is returned unchanged), and
with a positive interval a second tick immediately after any tick is a
no-op, so calling tick twice in succession yields an unchanged state. -/
theorem C6_tick_noop_when_not_due :
    (∀ (s : NvDashState) (nvml : Nvml) (pn : Nat → Option String) (now : Nat),
      now - s.last_poll < s.poll_interval → s.poll nvml pn now = s) ∧
    (∀ (s : NvDashState) (nvml : Nvml) (pn : Nat → Option String) (now : Nat),
      0 < s.poll_interval →
      (s.poll nvml pn now).poll nvml pn now = s.poll nvml pn now) := by
  constructor
  · intro s nvml pn now h
    exact poll_noop s nvml pn now h
  · intro s nvml pn now hpos
    by_cases h : now - s.last_poll < s.poll_interval
    · rw [poll_noop s nvml pn now h]
      exact poll_noop s nvml pn now h
    · have hrun := poll_run s nvml pn now h
      have hlast : (s.poll nvml pn now).last_poll = now := by rw [hrun]
      have hint : (s.poll nvml pn now).poll_interval = s.poll_interval := by rw [hrun]
      apply poll_noop
      rw [hlast, hint]
      omega

/-- Witness for C2 at a concrete run of 500 pushes. -/
theorem C2_history_ring_bound_witness :
    (GpuHistory.pushAll (List.replicate 500 (0 : ℚ))).length = 120 ∧
    GpuHistory.pushAll (List.replicate 500 (0 : ℚ))
      = (List.replicate 500 (0 : ℚ)).drop 380 :=
  (C2_history_ring_bound (List.replicate 500 (0 : ℚ))).2.2.2 (by rw [List.length_replicate])

/-- Witness for C6 at a concrete scheduler state. -/
theorem C6_tick_noop_when_not_due_witness :
    s3.poll nvml3 pn0 100 = s3 ∧
    (s3.poll nvml3 pn0 1000).poll nvml3 pn0 1000 = s3.poll nvml3 pn0 1000 :=
  ⟨C6_tick_noop_when_not_due.1 s3 nvml3 pn0 100 (by decide),
   C6_tick_noop_when_not_due.2 s3 nvml3 pn0 1000 (by decide)⟩

lemma except_bind_ok (a : α) (f : α → Except NvmlError β) :
    (Except.ok a >>= f) = f a := rfl

lemma except_bind_error (e : NvmlError) (f : α → Except NvmlError β) :
    ((Except.error e : Except NvmlError α) >>= f) = Except.error e := rfl

/-- A failing device-handle lookup propagates as the snapshot's error. -/
lemma snapshot_error_lookup (nvml : Nvml) (pn : Nat → Option String) (i : Nat)
    (e : NvmlError) (hd : nvml.device_by_index i = .error e) :
    GpuMonitor.snapshot nvml pn i = .error e := by
  simp only [GpuMonitor.snapshot, hd, except_bind_error]

/-- A failing memory query also propagates as the snapshot's error. -/
lemma snapshot_error_mem (nvml : Nvml) (pn : Nat → Option String) (i : Nat)
    (d : Device) (e : NvmlError) (hd : nvml.device_by_index i = .ok d)
    (hm : d.memory_info = .error e) :
    GpuMonitor.snapshot nvml pn i = .error e := by
  simp only [GpuMonitor.snapshot, hd, except_bind_ok, hm, except_bind_error]

/-- When the lookup and the memory query succeed, the snapshot succeeds
and every other field degrades independently to its default. -/
lemma snapshot_ok_form (nvml : Nvml) (pn : Nat → Option String) (i : Nat)
    (d : Device) (m : MemoryInfo) (hd : nvml.device_by_index i = .ok d)
    (hm : d.memory_info = .ok m) :
    GpuMonitor.snapshot nvml pn i = .ok
      { name := orDefault d.name "Unknown GPU"
        index := i
        driver_version := GpuMonitor.driver_version nvml
        cuda_version := GpuMonitor.cuda_version nvml
        gpu_util := (orDefault d.utilization_rates { gpu := 0, memory := 0 }).gpu
        memory_util := (orDefault d.utilization_rates { gpu := 0, memory := 0 }).memory
        vram_used_mb := m.used / (1024 * 1024)
        vram_total_mb := m.total / (1024 * 1024)
        temperature := orDefault d.temperature 0
        fan_speed := d.fan_speed.toOption
        power_draw_w := Rat.divInt (orDefault d.power_usage 0 : Nat) 1000
        power_limit_w := Rat.divInt (orDefault d.enforced_power_limit 0 : Nat) 1000
        clock_graphics_mhz := orDefault (d.clock_info ClockDomain.graphics) 0
        clock_memory_mhz := orDefault (d.clock_info ClockDomain.memory) 0
        clock_sm_mhz := orDefault (d.clock_info ClockDomain.sm) 0
        processes := sortByVramDesc (resolve_process_names pn
          (mergeProcesses (orDefault d.running_compute_processes [])
            (orDefault d.running_graphics_processes []))) } := by
  simp only [GpuMonitor.snapshot, hd, except_bind_ok, hm]
  rfl

/-- C1 (amended): `GpuMonitor::snapshot` returns an error exactly when
the device-handle lookup fails or the device's memory query fails: a
lookup error propagates, a `memory_info` error propagates, and whenever
both succeed the snapshot succeeds, with every remaining per-field query
(name, utilization, temperature, fan, power, clocks, process lists)
independently degraded to its documented default on failure. -/
theorem C1_snapshot_error_condition (nvml : Nvml) (pn : Nat → Option String) (i : Nat) :
    (∀ e, nvml.device_by_index i = .error e →
      GpuMonitor.snapshot nvml pn i = .error e) ∧
    (∀ d e, nvml.device_by_index i = .ok d → d.memory_info = .error e →
      GpuMonitor.snapshot nvml pn i = .error e) ∧
    (∀ d m, nvml.device_by_index i = .ok d → d.memory_info = .ok m →
      ∃ snap, GpuMonitor.snapshot nvml pn i = .ok snap) := by
  refine ⟨?_, ?_, ?_⟩
  · intro e he
    exact snapshot_error_lookup nvml pn i e he
  · intro d e hd hm
    exact snapshot_error_mem nvml pn i d e hd hm
  · intro d m hd hm
    exact ⟨_, snapshot_ok_form nvml pn i d m hd hm⟩

/-- C1 counterexample: a device whose handle lookup succeeds but whose
memory query fails makes the whole snapshot call return an error, so the
claimed "error iff device lookup fails" biconditional is false. -/
theorem C1_counterexample :
    nvmlMemFail.device_by_index 0 = .ok devMemFail ∧
    GpuMonitor.snapshot nvmlMemFail pn0 0 = .error { msg := "memory query failed" } :=
  ⟨rfl, rfl⟩

/-- Witness for C1 (amended) at concrete stub worlds: a failed lookup
errors, a failed memory query errors, and a device failing every other
query still snapshots successfully with the documented defaults. -/
theorem C1_snapshot_error_condition_witness :
    GpuMonitor.snapshot nvmlGone pn0 0 = .error { msg := "no such device" } ∧
    GpuMonitor.snapshot nvmlMemFail pn0 0 = .error { msg := "memory query failed" } ∧
    GpuMonitor.snapshot nvmlAllFail pn0 0 = .ok
      { name := "Unknown GPU"
        index := 0
        driver_version := "555.85"
        cuda_version := "12.4"
        gpu_util := 0
        memory_util := 0
        vram_used_mb := 1024
        vram_total_mb := 4096
        temperature := 0
        fan_speed := none
        power_draw_w := 0
        power_limit_w := 0
        clock_graphics_mhz := 0
        clock_memory_mhz := 0
        clock_sm_mhz := 0
        processes := [] } := by
  refine ⟨?_, ?_, ?_⟩
  · exact (C1_snapshot_error_condition nvmlGone pn0 0).1 { msg := "no such device" } rfl
  · exact (C1_snapshot_error_condition nvmlMemFail pn0 0).2.1 devMemFail
      { msg := "memory query failed" } rfl rfl
  · rcases (C1_snapshot_error_condition nvmlAllFail pn0 0).2.2 devAllFail
      { used := 1073741824, total := 4294967296 } rfl rfl with ⟨snap, hsnap⟩
    rw [hsnap]
    revert hsnap
    rw [snapshot_ok_form nvmlAllFail pn0 0 devAllFail
      { used := 1073741824, total := 4294967296 } rfl rfl]
    intro hsnap
    injection hsnap with hs
    rw [← hs]
    decide

/-- C9: the snapshot's VRAM fields are the vendor-reported used and total
byte counts divided by 1024·1024, passed through without clamping or
reordering; a stub reporting used > total yields a snapshot with
`vram_used_mb > vram_total_mb`. -/
theorem C9_vram_passthrough :
    (∀ (nvml : Nvml) (pn : Nat → Option String) (i : Nat) (d : Device)
        (m : MemoryInfo),
      nvml.device_by_index i = .ok d → d.memory_info = .ok m →
      ∃ snap, GpuMonitor.snapshot nvml pn i = .ok snap ∧
        snap.vram_used_mb = m.used / (1024 * 1024) ∧
        snap.vram_total_mb = m.total / (1024 * 1024)) ∧
    (∃ snap, GpuMonitor.snapshot nvmlUsedGtTotal pn0 0 = .ok snap ∧
      snap.vram_used_mb = 3072 ∧ snap.vram_total_mb = 1024 ∧
      snap.vram_total_mb < snap.vram_used_mb) := by
  constructor
  · intro nvml pn i d m hd hm
    exact ⟨_, snapshot_ok_form nvml pn i d m hd hm, rfl, rfl⟩
  · refine ⟨_, snapshot_ok_form nvmlUsedGtTotal pn0 0 devUsedGtTotal
      { used := 3221225472, total := 1073741824 } rfl rfl, ?_, ?_, ?_⟩
    · decide
    · decide
    · decide

/-- Witness for C9 at the used-greater-than-total stub. -/
theorem C9_vram_passthrough_witness :
    ∃ snap, GpuMonitor.snapshot nvmlUsedGtTotal pn0 0 = .ok snap ∧
      snap.vram_used_mb = 3221225472 / (1024 * 1024) ∧
      snap.vram_total_mb = 1073741824 / (1024 * 1024) :=
  C9_vram_passthrough.1 nvmlUsedGtTotal pn0 0 devUsedGtTotal
    { used := 3221225472, total := 1073741824 } rfl rfl

/-- C3 counterexample: with three devices of which only index 1 fails,
the completed polling pass leaves NO error message — each successful
device's iteration sets the error state to `None`, so device 2's success
erases the message device 1's failure had just written.  The claim that
the error state then "holds a single message naming that failing device"
is false. -/
theorem C3_counterexample :
    GpuMonitor.snapshot nvml3 pn0 1 = .error { msg := "device lost" } ∧
    GpuMonitor.snapshot nvml3 pn0 0 = .ok (sg3 0) ∧
    GpuMonitor.snapshot nvml3 pn0 2 = .ok (sg3 2) ∧
    s3.monitor.device_count = 3 ∧
    s3.error_msg = some "prior error" ∧
    (s3.poll nvml3 pn0 1000).error_msg = none :=
  ⟨rfl, by decide, by decide, rfl, rfl, rfl⟩

/-- C3 (amended): after a polling pass that runs over `n + 1` devices,
the error state reflects only the outcome of the last device processed —
`None` if device `n`'s snapshot succeeded (even when an earlier device
failed), and device `n`'s formatted failure message otherwise; any prior
message is overwritten either way.  A pass over zero devices leaves the
error state unchanged. -/
theorem C3_error_reflects_last_device :
    (∀ (s : NvDashState) (nvml : Nvml) (pn : Nat → Option String) (now n : Nat),
      s.poll_interval ≤ now - s.last_poll →
      s.monitor.device_count = n + 1 →
      (s.poll nvml pn now).error_msg
        = match GpuMonitor.snapshot nvml pn n with
          | .ok _ => none
          | .error e => some ("GPU " ++ toString n ++ " poll error: " ++ e.msg)) ∧
    (∀ (s : NvDashState) (nvml : Nvml) (pn : Nat → Option String) (now : Nat),
      s.poll_interval ≤ now - s.last_poll →
      s.monitor.device_count = 0 →
      (s.poll nvml pn now).error_msg = s.error_msg) := by
  constructor
  · intro s nvml pn now n hdue hcount
    have h' : ¬ now - s.last_poll < s.poll_interval := by omega
    rw [poll_run s nvml pn now h']
    show ((List.range s.monitor.device_count).foldl (pollStep nvml pn)
      { snapshots := s.snapshots, histories := s.histories,
        error_msg := s.error_msg }).error_msg = _
    rw [hcount]
    exact foldl_pollStep_range_succ_error_msg nvml pn n _
  · intro s nvml pn now hdue hcount
    have h' : ¬ now - s.last_poll < s.poll_interval := by omega
    rw [poll_run s nvml pn now h']
    show ((List.range s.monitor.device_count).foldl (pollStep nvml pn)
      { snapshots := s.snapshots, histories := s.histories,
        error_msg := s.error_msg }).error_msg = _
    rw [hcount]
    rfl

/-- Witness for C3 (amended) at the three-device stub: the pass's error
state equals the outcome of the last device (index 2), which succeeded. -/
theorem C3_error_reflects_last_device_witness :
    (s3.poll nvml3 pn0 1000).error_msg
      = match GpuMonitor.snapshot nvml3 pn0 2 with
        | .ok _ => none
        | .error e => some ("GPU " ++ toString 2 ++ " poll error: " ++ e.msg) :=
  C3_error_reflects_last_device.1 s3 nvml3 pn0 1000 2 (by decide) rfl

/-- C5: during a polling pass that runs, a device whose snapshot fails
keeps its stored snapshot and history buffers exactly as they were, and
every in-range device whose snapshot succeeds has its snapshot replaced
by the new one and the new sample pushed onto its history, independently
of any other device's failure. -/
theorem C5_partial_failure_isolation
    (s : NvDashState) (nvml : Nvml) (pn : Nat → Option String) (now : Nat)
    (hdue : s.poll_interval ≤ now - s.last_poll) :
    (∀ (j : Nat) (e : NvmlError), GpuMonitor.snapshot nvml pn j = .error e →
      (s.poll nvml pn now).snapshots[j]? = s.snapshots[j]? ∧
      (s.poll nvml pn now).histories[j]? = s.histories[j]?) ∧
    (∀ (j : Nat) (snap : GpuSnapshot), j < s.monitor.device_count →
      GpuMonitor.snapshot nvml pn j = .ok snap →
      j < s.snapshots.length → j < s.histories.length →
      (s.poll nvml pn now).snapshots[j]? = some snap ∧
      (s.poll nvml pn now).histories[j]?
        = (s.histories[j]?).map (fun h => h.push snap)) := by
  have h' : ¬ now - s.last_poll < s.poll_interval := by omega
  rw [poll_run s nvml pn now h']
  constructor
  · intro j e hj
    exact foldl_pollStep_range_error nvml pn j e hj s.monitor.device_count
      { snapshots := s.snapshots, histories := s.histories, error_msg := s.error_msg }
  · intro j snap hjc hj hs hh
    exact foldl_pollStep_range_ok nvml pn j snap hj s.monitor.device_count
      { snapshots := s.snapshots, histories := s.histories, error_msg := s.error_msg }
      hjc hs hh

/-- Witness for C5 at the three-device stub: failing device 1 keeps its
prior snapshot and history, while succeeding device 0 is replaced and
gets one sample pushed. -/
theorem C5_partial_failure_isolation_witness :
    ((s3.poll nvml3 pn0 1000).snapshots[1]? = s3.snapshots[1]? ∧
     (s3.poll nvml3 pn0 1000).histories[1]? = s3.histories[1]?) ∧
    ((s3.poll nvml3 pn0 1000).snapshots[0]? = some (sg3 0) ∧
     (s3.poll nvml3 pn0 1000).histories[0]?
       = (s3.histories[0]?).map (fun h => h.push (sg3 0))) :=
  ⟨(C5_partial_failure_isolation s3 nvml3 pn0 1000 (by decide)).1 1
      { msg := "device lost" } rfl,
   (C5_partial_failure_isolation s3 nvml3 pn0 1000 (by decide)).2 0 (sg3 0)
      (by decide) (by decide) (by decide) (by decide)⟩

/-- C4 counterexample: the duplicate-pid guard protects only the
graphics loop — a pid repeated inside the compute list itself is pushed
twice, so the merged list is not in general a duplicate-free union by
process id. -/
theorem C4_counterexample :
    ¬ ((mergeProcesses
        [{ pid := 10, used_gpu_memory := some 524288000 },
         { pid := 10, used_gpu_memory := some 629145600 }] []).map
          (fun p => p.pid)).Nodup ∧
    mergeProcesses
        [{ pid := 10, used_gpu_memory := some 524288000 },
         { pid := 10, used_gpu_memory := some 629145600 }] []
      ≠ specUnionByPid
          ([{ pid := 10, used_gpu_memory := some 524288000 },
            { pid := 10, used_gpu_memory := some 629145600 }] ++ []) := by
  decide

/-- C4 (amended): provided the compute list reports pairwise-distinct
pids (as the vendor API does in practice), the merged list is exactly
the first-seen-wins union by process id of the concatenated discovery
order, with no duplicate pids; entries with a missing reported memory
figure are kept with 0 MB; and the spec's example merges compute
[PID 10: 500 MB] with graphics [PID 10: 700 MB, PID 20: 100 MB] to
exactly [PID 10: 500 MB, PID 20: 100 MB]. -/
theorem C4_process_union_first_seen :
    (∀ (c g : List RawProc), (c.map RawProc.pid).Nodup →
      mergeProcesses c g = specUnionByPid (c ++ g) ∧
      ((mergeProcesses c g).map (fun p => p.pid)).Nodup) ∧
    (∀ p : RawProc, p.used_gpu_memory = none →
      procFromRaw p = { pid := p.pid, name := "", vram_mb := 0 }) ∧
    mergeProcesses [{ pid := 10, used_gpu_memory := some 524288000 }]
        [{ pid := 10, used_gpu_memory := some 734003200 },
         { pid := 20, used_gpu_memory := some 104857600 }]
      = [{ pid := 10, name := "", vram_mb := 500 },
         { pid := 20, name := "", vram_mb := 100 }] := by
  refine ⟨?_, ?_, by decide⟩
  · intro c g hnd
    exact ⟨mergeProcesses_eq_specUnion c g hnd, mergeProcesses_pid_nodup c g hnd⟩
  · intro p hp
    simp [procFromRaw, hp]

/-- Witness for C4 (amended) at the spec's own example lists. -/
theorem C4_process_union_first_seen_witness :
    (mergeProcesses [{ pid := 10, used_gpu_memory := some 524288000 }]
        [{ pid := 10, used_gpu_memory := some 734003200 },
         { pid := 20, used_gpu_memory := some 104857600 }]
      = specUnionByPid
          ([{ pid := 10, used_gpu_memory := some 524288000 }] ++
           [{ pid := 10, used_gpu_memory := some 734003200 },
            { pid := 20, used_gpu_memory := some 104857600 }]) ∧
     ((mergeProcesses [{ pid := 10, used_gpu_memory := some 524288000 }]
        [{ pid := 10, used_gpu_memory := some 734003200 },
         { pid := 20, used_gpu_memory := some 104857600 }]).map
           (fun p => p.pid)).Nodup) ∧
    procFromRaw { pid := 99, used_gpu_memory := none }
      = { pid := 99, name := "", vram_mb := 0 } :=
  ⟨C4_process_union_first_seen.1 [{ pid := 10, used_gpu_memory := some 524288000 }]
      [{ pid := 10, used_gpu_memory := some 734003200 },
       { pid := 20, used_gpu_memory := some 104857600 }] (by decide),
   C4_process_union_first_seen.2.1 { pid := 99, used_gpu_memory := none } rfl⟩

/-- C7: the snapshot's final process sequence is the merged, name-resolved
process list sorted by `sortByVramDesc`, and `sortByVramDesc` is a stable
descending sort: it permutes its input, orders it by non-increasing VRAM
footprint, preserves the relative order of equal-footprint entries (the
filter at any footprint value is unchanged), and sorts the spec's example
[PID 1: 100, PID 2: 100, PID 3: 200] to [PID 3, PID 1, PID 2]. -/
theorem C7_stable_descending_sort :
    (∀ (nvml : Nvml) (pn : Nat → Option String) (i : Nat) (d : Device)
        (m : MemoryInfo),
      nvml.device_by_index i = .ok d → d.memory_info = .ok m →
      ∃ snap, GpuMonitor.snapshot nvml pn i = .ok snap ∧
        snap.processes = sortByVramDesc (resolve_process_names pn
          (mergeProcesses (orDefault d.running_compute_processes [])
            (orDefault d.running_graphics_processes [])))) ∧
    (∀ l : List ProcessInfo,
      List.Perm (sortByVramDesc l) l ∧
      (sortByVramDesc l).Pairwise (fun a b => b.vram_mb ≤ a.vram_mb) ∧
      (∀ v : Nat, (sortByVramDesc l).filter (fun p => p.vram_mb == v)
        = l.filter (fun p => p.vram_mb == v))) ∧
    sortByVramDesc
        [{ pid := 1, name := "", vram_mb := 100 },
         { pid := 2, name := "", vram_mb := 100 },
         { pid := 3, name := "", vram_mb := 200 }]
      = [{ pid := 3, name := "", vram_mb := 200 },
         { pid := 1, name := "", vram_mb := 100 },
         { pid := 2, name := "", vram_mb := 100 }] := by
  refine ⟨?_, ?_, by decide⟩
  · intro nvml pn i d m hd hm
    exact ⟨_, snapshot_ok_form nvml pn i d m hd hm, rfl⟩
  · intro l
    exact ⟨sortByVramDesc_perm l, sortByVramDesc_sorted l,
      fun v => sortByVramDesc_stable l v⟩

/-- Witness for C7 at the `devGood` stub. -/
theorem C7_stable_descending_sort_witness :
    ∃ snap, GpuMonitor.snapshot nvml3 pn0 0 = .ok snap ∧
      snap.processes = sortByVramDesc (resolve_process_names pn0
        (mergeProcesses (orDefault devGood.running_compute_processes [])
          (orDefault devGood.running_graphics_processes []))) :=
  C7_stable_descending_sort.1 nvml3 pn0 0 devGood
    { used := 2147483648, total := 8589934592 } rfl rfl

/-- C8 counterexample: `driver_version`/`cuda_version` issue a fresh
vendor query on every call, so the same monitor observed under a changed
vendor state returns different strings — the claimed call-to-call
equality is false. -/
theorem C8_counterexample :
    GpuMonitor.driver_version nvml3 ≠ GpuMonitor.driver_version nvmlV2 ∧
    GpuMonitor.cuda_version nvml3 ≠ GpuMonitor.cuda_version nvmlV2 := by
  decide

/-- C8 (amended): only `device_count` is cached at Monitor
initialization (the stored count is the init-time query result, so it is
insensitive to later vendor changes); `driver_version()` and
`cuda_version()` are NOT cached — each call issues a fresh system query,
their results depend only on the vendor state at call time (not on the
monitor instance), and each snapshot stores the versions freshly queried
during that snapshot call, so calls under a changed vendor state can
return different strings. -/
theorem C8_versions_fresh_count_cached :
    (∀ (nvml : Nvml) (m : GpuMonitor), GpuMonitor.init nvml = .ok m →
      nvml.device_count = .ok m.device_count) ∧
    (∀ (nvml nvml' : Nvml),
      nvml.sys_driver_version = nvml'.sys_driver_version →
      GpuMonitor.driver_version nvml = GpuMonitor.driver_version nvml') ∧
    (∀ (nvml nvml' : Nvml),
      nvml.sys_cuda_driver_version = nvml'.sys_cuda_driver_version →
      GpuMonitor.cuda_version nvml = GpuMonitor.cuda_version nvml') ∧
    (∀ (nvml : Nvml) (pn : Nat → Option String) (i : Nat) (snap : GpuSnapshot),
      GpuMonitor.snapshot nvml pn i = .ok snap →
      snap.driver_version = GpuMonitor.driver_version nvml ∧
      snap.cuda_version = GpuMonitor.cuda_version nvml) := by
  refine ⟨?_, ?_, ?_, ?_⟩
  · intro nvml m h
    unfold GpuMonitor.init at h
    cases hdc : nvml.device_count with
    | ok c =>
      rw [hdc, except_bind_ok] at h
      injection h with h'
      subst h'
      rfl
    | error e =>
      rw [hdc, except_bind_error] at h
      exact Except.noConfusion h
  · intro nvml nvml' h
    unfold GpuMonitor.driver_version
    rw [h]
  · intro nvml nvml' h
    unfold GpuMonitor.cuda_version
    rw [h]
  · intro nvml pn i snap h
    cases hd : nvml.device_by_index i with
    | ok d =>
      cases hm : d.memory_info with
      | ok m =>
        rw [snapshot_ok_form nvml pn i d m hd hm] at h
        injection h with h'
        rw [← h']
        exact ⟨rfl, rfl⟩
      | error e =>
        rw [snapshot_error_mem nvml pn i d e hd hm] at h
        exact Except.noConfusion h
    | error e =>
      rw [snapshot_error_lookup nvml pn i e hd] at h
      exact Except.noConfusion h

/-- Witness for C8 (amended): at the three-device stub, the cached count
equals the init-time query, and the stub's snapshot carries the versions
queried at snapshot time. -/
theorem C8_versions_fresh_count_cached_witness :
    nvml3.device_count = .ok (s3.monitor.device_count) ∧
    (sg3 0).driver_version = GpuMonitor.driver_version nvml3 ∧
    (sg3 0).cuda_version = GpuMonitor.cuda_version nvml3 :=
  ⟨C8_versions_fresh_count_cached.1 nvml3 s3.monitor rfl,
   (C8_versions_fresh_count_cached.2.2.2 nvml3 pn0 0 (sg3 0) (by decide)).1,
   (C8_versions_fresh_count_cached.2.2.2 nvml3 pn0 0 (sg3 0) (by decide)).2⟩
